import Mathlib

/-!
Verification of the order-configuration and submission logic of the
Print Scheduling System frontend.

The definitions below are a shallow embedding of the TypeScript source:

* `frontend/app/context/OrderContext.tsx` — the `PrintConfig` data model,
  the derived `totalPages`, the `estimatedCost` calculation, and the file
  list operations `addFiles`, `removeFile`, `reorderFiles`;
* `frontend/app/configure` page (`DocsConfiguration`) — the dropdown and
  custom-copies handlers that mutate `printConfig`;
* `frontend/app/payment/page.tsx` and `frontend/app/lib/api.ts` — the
  `handlePayment` guard and the positional call into `submitOrder`;
* `frontend/app/student/page.tsx` — the service-status gate on the upload
  view.

JavaScript numbers are embedded as `ℚ` (all arithmetic performed by the
code is exact on small rationals), page counts as `ℕ`, and nullable

values as `Option`.
-/

namespace PrintScheduling

/-- `colorMode: 'bw' | 'color'` from `PrintConfig` in `OrderContext.tsx`. -/
inductive ColorMode
  | bw
  | color
  deriving DecidableEq, Repr

/-- `paperType: 'normal' | 'photopaper'` from `PrintConfig`. -/
inductive PaperType
  | normal
  | photopaper
  deriving DecidableEq, Repr

/-- `printSides: 'single' | 'double'` from `PrintConfig`. -/
inductive PrintSides
  | single
  | double
  deriving DecidableEq, Repr

/-- `pageSize: 'A4' | 'A3'` from `PrintConfig`. -/
inductive PageSize
  | A4
  | A3
  deriving DecidableEq, Repr

/-- `binding: 'none' | 'spiral' | 'soft'` from `PrintConfig`. -/
inductive Binding
  | none
  | spiral
  | soft
  deriving DecidableEq, Repr

/-- The `PrintConfig` interface of `OrderContext.tsx`.  `copies` is a
JavaScript number that the handlers only ever set to integers, so it is
embedded as `ℤ`. -/
structure PrintConfig where
  colorMode : ColorMode
  paperType : PaperType
  printSides : PrintSides
  copies : Int
  pageSize : PageSize
  binding : Binding
  deriving DecidableEq, Repr

/-- `defaultPrintConfig` from `OrderContext.tsx`. -/
def defaultPrintConfig : PrintConfig :=
  { colorMode := ColorMode.bw
    paperType := PaperType.normal
    printSides := PrintSides.single
    copies := 1
    pageSize := PageSize.A4
    binding := Binding.none }

/-- The `StudentInfo` interface of `OrderContext.tsx`. -/
structure StudentInfo where
  name : String
  studentId : String
  phoneNumber : String
  instructions : String
  deriving DecidableEq, Repr

/-- The `UploadedFile` interface of `OrderContext.tsx`.  The browser `File`
object is external browser data whose contents never reach the logic
modelled here, so only `id`, `name` and the optional `pageCount`
(`pageCount?: number`) are carried. -/
structure UploadedFile where
  id : String
  name : String
  pageCount : Option Nat
  deriving DecidableEq, Repr

/-- `uploadedPages` after the double-sided adjustment in `estimatedCost`
(`OrderContext.tsx`): `if (printConfig.printSides === 'double')
uploadedPages = Math.ceil(uploadedPages / 2) * 2`.  For a natural page
count the JavaScript float computation `Math.ceil(n / 2) * 2` is exactly
the natural-number ceiling below. -/
def billedPages (printSides : PrintSides) (totalPages : Nat) : Nat :=
  if printSides = PrintSides.double then Nat.ceil ((totalPages : ℚ) / 2) * 2
  else totalPages

/-- `pricePerPage` from `estimatedCost` (`OrderContext.tsx`): starts at 0,
photo paper depends on page size only, normal paper on page size and
color mode. -/
def pricePerPage (paperType : PaperType) (pageSize : PageSize)
    (colorMode : ColorMode) : ℚ :=
  if paperType = PaperType.photopaper then
    if pageSize = PageSize.A4 then 20 else 40
  else
    if pageSize = PageSize.A4 then
      if colorMode = ColorMode.bw then 2 else 5
    else if pageSize = PageSize.A3 then
      if colorMode = ColorMode.bw then 4 else 20
    else 0

/-- `xeroxPricePerPage` from `estimatedCost` (`OrderContext.tsx`):
`printConfig.colorMode === 'bw' ? 1.5 : 5`. -/
def xeroxPricePerPage (colorMode : ColorMode) : ℚ :=
  if colorMode = ColorMode.bw then 1.5 else 5

/-- The binding surcharge added at the end of `estimatedCost`
(`OrderContext.tsx`): spiral adds 25, soft adds 100, none adds nothing. -/
def bindingCost (binding : Binding) : ℚ :=
  match binding with
  | Binding.spiral => 25
  | Binding.soft => 100
  | Binding.none => 0

/-- The `estimatedCost` computation of `OrderContext.tsx`, as a function of
the `totalPages` state and the `printConfig` state it reads. -/
def estimatedCost (totalPages : Nat) (printConfig : PrintConfig) : ℚ :=
  let uploadedPages : Nat := billedPages printConfig.printSides totalPages
  let frontPageCost : ℚ := 2
  let baseCost : ℚ :=
    if printConfig.copies = 1 then
      frontPageCost + uploadedPages *
        pricePerPage printConfig.paperType printConfig.pageSize printConfig.colorMode
    else
      frontPageCost + uploadedPages *
        pricePerPage printConfig.paperType printConfig.pageSize printConfig.colorMode
        + uploadedPages * xeroxPricePerPage printConfig.colorMode *
          ((printConfig.copies - 1 : ℤ) : ℚ)
  if printConfig.binding = Binding.spiral then baseCost + 25
  else if printConfig.binding = Binding.soft then baseCost + 100
  else baseCost

/-- The `useEffect` in `OrderProvider` (`OrderContext.tsx`) that recomputes
`totalPages` whenever `files` changes:
`files.reduce((sum, file) => sum + (file.pageCount || 0), 0)`. -/
def totalPages (files : List UploadedFile) : Nat :=
  files.foldl (fun sum file => sum + file.pageCount.getD 0) 0

/-- `addFiles` from `OrderContext.tsx`: `setFiles(prev => [...prev, ...newFiles])`. -/
def addFiles (files newFiles : List UploadedFile) : List UploadedFile :=
  files ++ newFiles

/-- `removeFile` from `OrderContext.tsx`: `setFiles(prev => prev.filter(f => f.id !== id))`. -/
def removeFile (files : List UploadedFile) (id : String) : List UploadedFile :=
  files.filter (fun f => f.id ≠ id)

/-- `reorderFiles` from `OrderContext.tsx`: copy the list, `splice` the
element out at `fromIndex`, then `splice` it back in at `toIndex`.  For an
in-range `fromIndex` the two splices are exactly `eraseIdx` followed by
`insertIdx`; an out-of-range `fromIndex` would make JavaScript insert
`undefined`, which has no counterpart for a `File` element and is outside
the in-range scope of every property stated below. -/
def reorderFiles (files : List UploadedFile) (fromIndex toIndex : Nat) :
    List UploadedFile :=
  match files[fromIndex]? with
  | some movedFile => (files.eraseIdx fromIndex).insertIdx toIndex movedFile
  | Option.none => files

/-- `handleColorModeSelect` from the configure page (`DocsConfiguration`):
`setPrintConfig({ ...printConfig, colorMode: mode })`. -/
def handleColorModeSelect (printConfig : PrintConfig) (mode : ColorMode) : PrintConfig :=
  { printConfig with colorMode := mode }

/-- `handlePaperTypeSelect` from the configure page. -/
def handlePaperTypeSelect (printConfig : PrintConfig) (type : PaperType) : PrintConfig :=
  { printConfig with paperType := type }

/-- `handlePageSizeSelect` from the configure page. -/
def handlePageSizeSelect (printConfig : PrintConfig) (size : PageSize) : PrintConfig :=
  { printConfig with pageSize := size }

/-- `handlePrintSidesSelect` from the configure page. -/
def handlePrintSidesSelect (printConfig : PrintConfig) (sides : PrintSides) : PrintConfig :=
  { printConfig with printSides := sides }

/-- `handleCopiesSelect` from the configure page:
`setPrintConfig({ ...printConfig, copies })`. -/
def handleCopiesSelect (printConfig : PrintConfig) (copies : Int) : PrintConfig :=
  { printConfig with copies := copies }

/-- The values offered by the copies dropdown on the configure page:
`[1, 2, 3, 4, 5, 6, 7, 8, 9, 10].map(...)` (the alternative configure page
lists `[1, 2, 3, 4, 5]`, a subset). -/
def copiesOptions : List Int := [1, 2, 3, 4, 5, 6, 7, 8, 9, 10]

/-- JavaScript `parseInt` on the decimal strings a text input can hold:
skip leading whitespace, read an optional sign and then the longest run of
digits; `none` models `NaN` (no digits found). -/
def parseIntJs (s : String) : Option Int :=
  let t := s.trim
  let (sign, rest) :=
    if t.startsWith "-" then ((-1 : Int), t.drop 1)
    else if t.startsWith "+" then ((1 : Int), t.drop 1)
    else ((1 : Int), t)
  let digits := rest.takeWhile Char.isDigit
  match digits.toNat? with
  | some n => some (sign * n)
  | Option.none => Option.none

/-- `handleCustomCopiesSubmit` from the configure page:
`const num = parseInt(customCopiesInput); if (!isNaN(num) && num >= 1 && num <= 50)
setPrintConfig({ ...printConfig, copies: num })`, otherwise the config is
left unchanged. -/
def handleCustomCopiesSubmit (printConfig : PrintConfig)
    (customCopiesInput : String) : PrintConfig :=
  match parseIntJs customCopiesInput with
  | some num =>
      if 1 ≤ num ∧ num ≤ 50 then { printConfig with copies := num }
      else printConfig
  | Option.none => printConfig

/-- `handleBindingToggle` from the configure page: clicking the active
binding turns it off, otherwise the clicked binding replaces the current
one.  The page only invokes it with `'spiral'` or `'soft'`. -/
def handleBindingToggle (printConfig : PrintConfig) (binding : Binding) : PrintConfig :=
  { printConfig with
      binding := if printConfig.binding = binding then Binding.none else binding }

/-- The `printConfig` states reachable in the frontend: the provider
starts from (and `resetOrder` returns to) `defaultPrintConfig`, and every
mutation goes through one of the configure-page handlers.  The copies
dropdown offers only `copiesOptions`; the binding buttons pass only
`spiral` or `soft`. -/
inductive ReachableConfig : PrintConfig → Prop
  | start : ReachableConfig defaultPrintConfig
  | colorModeSelect {cfg : PrintConfig} (mode : ColorMode) :
      ReachableConfig cfg → ReachableConfig (handleColorModeSelect cfg mode)
  | paperTypeSelect {cfg : PrintConfig} (type : PaperType) :
      ReachableConfig cfg → ReachableConfig (handlePaperTypeSelect cfg type)
  | pageSizeSelect {cfg : PrintConfig} (size : PageSize) :
      ReachableConfig cfg → ReachableConfig (handlePageSizeSelect cfg size)
  | printSidesSelect {cfg : PrintConfig} (sides : PrintSides) :
      ReachableConfig cfg → ReachableConfig (handlePrintSidesSelect cfg sides)
  | copiesSelect {cfg : PrintConfig} {copies : Int} :
      ReachableConfig cfg → copies ∈ copiesOptions →
      ReachableConfig (handleCopiesSelect cfg copies)
  | customCopiesSubmit {cfg : PrintConfig} (input : String) :
      ReachableConfig cfg → ReachableConfig (handleCustomCopiesSubmit cfg input)
  | bindingToggle {cfg : PrintConfig} {binding : Binding} :
      ReachableConfig cfg → binding ≠ Binding.none →
      ReachableConfig (handleBindingToggle cfg binding)

/-- The string value the frontend sends for a color mode. -/
def ColorMode.str : ColorMode → String
  | ColorMode.bw => "bw"
  | ColorMode.color => "color"

/-- The string value the frontend sends for a print-sides choice. -/
def PrintSides.str : PrintSides → String
  | PrintSides.single => "single"
  | PrintSides.double => "double"

/-- The scalar parameters of `submitOrder` in `lib/api.ts`, in declaration
order (`files` is the separately handled array parameter and carries no
claim-relevant data).  Each is `Option`-valued because the JavaScript
runtime binds `undefined` to any parameter the caller does not supply. -/
structure SubmitOrderArgs where
  studentName : Option String
  studentId : Option String
  colorMode : Option String
  printSides : Option String
  copies : Option Int
  pageSize : Option String
  paperType : Option String
  binding : Option String
  instructions : Option String
  transactionId : Option String
  deriving DecidableEq, Repr

/-- The multipart form fields appended by the body of `submitOrder`
(`lib/api.ts`), under their snake_case wire names. -/
structure SubmitOrderForm where
  student_name : Option String
  student_id : Option String
  color_mode : Option String
  print_sides : Option String
  copies : Option Int
  page_size : Option String
  paper_type : Option String
  binding : Option String
  instructions : Option String
  transaction_id : Option String
  deriving DecidableEq, Repr

/-- The body of `submitOrder` (`lib/api.ts`): each parameter is appended to
the form under its snake_case field name (`formData.append('transaction_id',
transactionId)` and so on). -/
def submitOrder (args : SubmitOrderArgs) : SubmitOrderForm :=
  { student_name := args.studentName
    student_id := args.studentId
    color_mode := args.colorMode
    print_sides := args.printSides
    copies := args.copies
    page_size := args.pageSize
    paper_type := args.paperType
    binding := args.binding
    instructions := args.instructions
    transaction_id := args.transactionId }

/-- The component state of `payment/page.tsx` that `handlePayment` reads. -/
structure PaymentPageState where
  transactionId : Option String
  isSubmitting : Bool
  deriving DecidableEq, Repr

/-- `const isPaymentVerified = transactionId !== null` (`payment/page.tsx`). -/
def isPaymentVerified (state : PaymentPageState) : Bool :=
  state.transactionId.isSome

/-- `handlePayment` from `payment/page.tsx`, returning the `submitOrder`
call it performs, or `none` when the guard
`if (!isPaymentVerified || isSubmitting || !transactionId) return` fires.
The call site passes eight positional arguments to the eleven-parameter
`submitOrder`, so — as the JavaScript runtime binds them — the seventh
argument `studentInfo.instructions` lands on the `pageSize` parameter, the
eighth argument `transactionId` lands on `paperType`, and the `binding`,
`instructions` and `transactionId` parameters are left `undefined`. -/
def handlePayment (state : PaymentPageState) (studentInfo : StudentInfo)
    (printConfig : PrintConfig) : Option SubmitOrderForm :=
  if isPaymentVerified state = false ∨ state.isSubmitting = true
      ∨ state.transactionId = Option.none then
    Option.none
  else
    match state.transactionId with
    | some transactionId =>
        some (submitOrder
          { studentName := some studentInfo.name
            studentId := some studentInfo.studentId
            colorMode := some printConfig.colorMode.str
            printSides := some printConfig.printSides.str
            copies := some printConfig.copies
            pageSize := some studentInfo.instructions
            paperType := some transactionId
            binding := Option.none
            instructions := Option.none
            transactionId := Option.none })
    | Option.none => Option.none

/-- The `ServiceStatus` shape consumed by `student/page.tsx`; `message` is
nullable at runtime (the fetch fallback stores `message: null`). -/
structure ServiceStatus where
  is_active : Bool
  message : Option String
  stopped_at : Option String
  stopped_by : Option String
  deriving DecidableEq, Repr

/-- `fetchServiceStatus` from `student/page.tsx`: store the fetched status,
or default to active when the request fails
(`setServiceStatus({ is_active: true, message: null, stopped_at: null })`). -/
def fetchServiceStatus (result : Option ServiceStatus) : ServiceStatus :=
  match result with
  | some status => status
  | Option.none =>
      { is_active := true
        message := Option.none
        stopped_at := Option.none
        stopped_by := Option.none }

/-- The fallback text shown by the stopped banner
(`serviceStatus.message || '...'` in `student/page.tsx`). -/
def defaultStoppedMessage : String :=
  "The print service is currently not accepting new orders. Please try again later."

/-- JavaScript `value || fallback` on a nullable string: `null`,
`undefined` and the empty string are falsy. -/
def jsOrString (value : Option String) (fallback : String) : String :=
  match value with
  | some s => if s = "" then fallback else s
  | Option.none => fallback

/-- The three mutually exclusive bodies the student dashboard can render:
the loading spinner, the service-stopped banner (which contains no upload
input and no continue button), or the upload view (the only branch with
the file input, the file list and the continue button). -/
inductive StudentView
  | loadingView
  | serviceStoppedBanner (message : String)
  | uploadView
  deriving DecidableEq, Repr

/-- The render decision of `StudentDashboard` (`student/page.tsx`):
`loading ? spinner : serviceStatus && !serviceStatus.is_active ? banner :
uploadUI`, with the banner showing `serviceStatus.message || defaultStoppedMessage`. -/
def renderStudentDashboard (loading : Bool) (serviceStatus : Option ServiceStatus) :
    StudentView :=
  if loading then StudentView.loadingView
  else
    match serviceStatus with
    | some status =>
        if status.is_active = false then
          StudentView.serviceStoppedBanner (jsOrString status.message defaultStoppedMessage)
        else StudentView.uploadView
    | Option.none => StudentView.uploadView

/-! Helper lemmas shared by the claim theorems. -/

/-- The natural-number ceiling of `n / 2` computed over `ℚ`. -/
theorem ceil_half_eq (n : ℕ) : ⌈(n : ℚ) / 2⌉₊ = (n + 1) / 2 := by
  rcases Nat.even_or_odd n with ⟨k, hk⟩ | ⟨k, hk⟩
  · subst hk
    have h : ((k + k : ℕ) : ℚ) / 2 = (k : ℚ) := by push_cast; ring
    rw [h, Nat.ceil_natCast]
    omega
  · subst hk
    have h : ((2 * k + 1 : ℕ) : ℚ) / 2 = (k : ℚ) + 1 / 2 := by push_cast; ring
    have h2 : ⌈(k : ℚ) + 1 / 2⌉₊ = k + 1 := by
      rw [Nat.ceil_eq_iff (Nat.succ_ne_zero k)]
      refine ⟨?_, ?_⟩
      · push_cast [Nat.add_sub_cancel]
        linarith
      · push_cast
        linarith
    rw [h, h2]
    omega

/-- Closed form of the double-sided page adjustment. -/
theorem billedPages_double (n : ℕ) :
    billedPages PrintSides.double n = (n + 1) / 2 * 2 := by
  simp [billedPages, ceil_half_eq]

/-- Single-sided jobs bill the raw page count. -/
theorem billedPages_single (n : ℕ) : billedPages PrintSides.single n = n := by
  simp [billedPages]

/-- `estimatedCost` in closed form: front page, priced pages, xerox term
for extra copies, binding surcharge. -/
theorem estimatedCost_closed_form (n : ℕ) (cfg : PrintConfig) :
    estimatedCost n cfg
      = 2 + (billedPages cfg.printSides n : ℚ) *
          pricePerPage cfg.paperType cfg.pageSize cfg.colorMode
        + (if cfg.copies = 1 then 0
           else (billedPages cfg.printSides n : ℚ) *
             xeroxPricePerPage cfg.colorMode * ((cfg.copies - 1 : ℤ) : ℚ))
        + bindingCost cfg.binding := by
  obtain ⟨cm, pt, ps, cp, sz, b⟩ := cfg
  by_cases hcp : cp = 1 <;> cases b <;>
    simp [estimatedCost, bindingCost, hcp]

/-- The price table contains no negative entry. -/
theorem pricePerPage_nonneg (pt : PaperType) (sz : PageSize) (cm : ColorMode) :
    0 ≤ pricePerPage pt sz cm := by
  cases pt <;> cases sz <;> cases cm <;> simp [pricePerPage]

/-- Xerox rates are non-negative. -/
theorem xeroxPricePerPage_nonneg (cm : ColorMode) : 0 ≤ xeroxPricePerPage cm := by
  cases cm <;> simp [xeroxPricePerPage] <;> norm_num

/-- Binding surcharges are non-negative. -/
theorem bindingCost_nonneg (b : Binding) : 0 ≤ bindingCost b := by
  cases b <;> norm_num [bindingCost]

/-- Folding the page-count accumulator equals the accumulator plus the sum
of the mapped page counts. -/
theorem totalPages_foldl (fs : List UploadedFile) (a : ℕ) :
    fs.foldl (fun sum file => sum + file.pageCount.getD 0) a
      = a + (fs.map (fun file => file.pageCount.getD 0)).sum := by
  induction fs generalizing a with
  | nil => simp
  | cons f fs ih => simp [List.foldl_cons, ih]; ring

/-- `totalPages` is the sum of the per-file page counts. -/
theorem totalPages_eq_sum (fs : List UploadedFile) :
    totalPages fs = (fs.map (fun file => file.pageCount.getD 0)).sum := by
  simpa using totalPages_foldl fs 0

/-- Inserting at an in-range index is a permutation of consing. -/
theorem insertIdx_perm {α : Type*} (a : α) :
    ∀ (n : ℕ) (l : List α), n ≤ l.length → (List.insertIdx n a l).Perm (a :: l)
  | 0, l, _ => by simp
  | n + 1, [], h => absurd h (by simp)
  | n + 1, x :: l, h => by
    simp only [List.insertIdx_succ_cons]
    exact ((insertIdx_perm a n l (Nat.le_of_succ_le_succ h)).cons x).trans
      (List.Perm.swap a x l)

/-- A list is a permutation of its element at `i` consed onto the list with
index `i` erased. -/
theorem eraseIdx_cons_perm {α : Type*} :
    ∀ (l : List α) (i : ℕ) (h : i < l.length), l.Perm (l[i] :: l.eraseIdx i)
  | x :: l, 0, _ => by simp
  | x :: l, i + 1, h => by
    have hl : i < l.length := by simpa using h
    have ih := eraseIdx_cons_perm l i hl
    simpa using (ih.cons x).trans (List.Perm.swap (l[i]) x (l.eraseIdx i))

/-- Re-inserting the erased element at its old index restores the list. -/
theorem insertIdx_getElem_eraseIdx {α : Type*} :
    ∀ (l : List α) (i : ℕ) (h : i < l.length),
      List.insertIdx i (l[i]) (l.eraseIdx i) = l
  | x :: l, 0, _ => by simp
  | x :: l, i + 1, h => by
    have hl : i < l.length := by simpa using h
    have ih := insertIdx_getElem_eraseIdx l i hl
    simpa using ih

/-- `handleCustomCopiesSubmit` either leaves the config unchanged or sets
`copies` to a parsed integer in the range 1–50. -/
theorem customCopies_cases (cfg : PrintConfig) (input : String) :
    handleCustomCopiesSubmit cfg input = cfg
    ∨ ∃ num : Int, (1 ≤ num ∧ num ≤ 50)
        ∧ handleCustomCopiesSubmit cfg input = { cfg with copies := num } := by
  unfold handleCustomCopiesSubmit
  generalize parseIntJs input = p
  cases p with
  | none => exact Or.inl rfl
  | some num =>
      by_cases hr : 1 ≤ num ∧ num ≤ 50
      · exact Or.inr ⟨num, hr, if_pos hr⟩
      · exact Or.inl (if_neg hr)

/-! The claim theorems. -/

/-- C2: for every non-negative `totalPages`, a double-sided job bills
`ceil(totalPages/2)*2` pages — the raw count rounded up to the nearest
even number — while any other job bills `totalPages` unchanged; in
particular 7 pages, one copy, double-sided, A4, black-and-white, normal
paper, no binding cost `2 + 8*2 = 18`. -/
theorem billedPages_double_rounds_up_to_even (n : ℕ) :
    billedPages PrintSides.double n = ⌈(n : ℚ) / 2⌉₊ * 2
    ∧ billedPages PrintSides.double n % 2 = 0
    ∧ n ≤ billedPages PrintSides.double n
    ∧ billedPages PrintSides.double n < n + 2
    ∧ billedPages PrintSides.single n = n
    ∧ estimatedCost 7
        { colorMode := ColorMode.bw
          paperType := PaperType.normal
          printSides := PrintSides.double
          copies := 1
          pageSize := PageSize.A4
          binding := Binding.none } = 2 + 8 * 2 := by
  refine ⟨by simp [billedPages], ?_, ?_, ?_, billedPages_single n, ?_⟩
  · rw [billedPages_double]
    omega
  · rw [billedPages_double]
    omega
  · rw [billedPages_double]
    omega
  · rw [estimatedCost_closed_form]
    simp [billedPages_double, pricePerPage, bindingCost]

/-- C3: with more than one copy the cost is the front page (2) plus the
billed pages at the configured per-page price plus the billed pages at the
flat xerox rate (1.5 black-and-white, 5 color, independent of page size
and paper type) times the number of extra copies, with the binding
surcharge on top; the front page is billed exactly once.  In particular
4 pages, 3 copies, single-sided, A4, black-and-white, normal paper, no
binding cost `2 + 4*2 + 4*1.5*2 = 22`. -/
theorem multi_copy_cost (n : ℕ) (cfg : PrintConfig) (h : 1 < cfg.copies) :
    estimatedCost n cfg
      = 2 + (billedPages cfg.printSides n : ℚ) *
          pricePerPage cfg.paperType cfg.pageSize cfg.colorMode
        + (billedPages cfg.printSides n : ℚ) * xeroxPricePerPage cfg.colorMode *
          ((cfg.copies - 1 : ℤ) : ℚ)
        + bindingCost cfg.binding
    ∧ xeroxPricePerPage ColorMode.bw = 1.5
    ∧ xeroxPricePerPage ColorMode.color = 5
    ∧ estimatedCost 4
        { colorMode := ColorMode.bw
          paperType := PaperType.normal
          printSides := PrintSides.single
          copies := 3
          pageSize := PageSize.A4
          binding := Binding.none } = 2 + 4 * 2 + 4 * 1.5 * 2 := by
  refine ⟨?_, by simp [xeroxPricePerPage], by simp [xeroxPricePerPage], ?_⟩
  · rw [estimatedCost_closed_form, if_neg (by omega)]
  · rw [estimatedCost_closed_form]
    simp [billedPages_single, pricePerPage, xeroxPricePerPage, bindingCost]

/-- Witness for C3 at the concrete multi-copy example from the spec. -/
theorem multi_copy_cost_witness :
    estimatedCost 4
      { colorMode := ColorMode.bw
        paperType := PaperType.normal
        printSides := PrintSides.single
        copies := 3
        pageSize := PageSize.A4
        binding := Binding.none } = 2 + 4 * 1.5 * 2 + 4 * 2 :=
  ((multi_copy_cost 4
    { colorMode := ColorMode.bw
      paperType := PaperType.normal
      printSides := PrintSides.single
      copies := 3
      pageSize := PageSize.A4
      binding := Binding.none } (by norm_num)).2.2.2).trans (by ring)

/-- C4: the per-page price of the uploaded pages is exactly the table on
(paperType, pageSize, colorMode): photo paper 20 for A4 and 40 for A3 with
color mode irrelevant; normal paper 2 for A4 black-and-white, 5 for A4
color, 4 for A3 black-and-white, 20 for A3 color — and this is the price
`estimatedCost` multiplies the uploaded pages by. -/
theorem price_per_page_table (colorMode : ColorMode) :
    pricePerPage PaperType.photopaper PageSize.A4 colorMode = 20
    ∧ pricePerPage PaperType.photopaper PageSize.A3 colorMode = 40
    ∧ pricePerPage PaperType.normal PageSize.A4 ColorMode.bw = 2
    ∧ pricePerPage PaperType.normal PageSize.A4 ColorMode.color = 5
    ∧ pricePerPage PaperType.normal PageSize.A3 ColorMode.bw = 4
    ∧ pricePerPage PaperType.normal PageSize.A3 ColorMode.color = 20
    ∧ ∀ (n : ℕ) (pt : PaperType) (sz : PageSize),
        estimatedCost n
          { colorMode := colorMode
            paperType := pt
            printSides := PrintSides.single
            copies := 1
            pageSize := sz
            binding := Binding.none }
          = 2 + (n : ℚ) * pricePerPage pt sz colorMode := by
  refine ⟨?_, ?_, ?_, ?_, ?_, ?_, ?_⟩
  · cases colorMode <;> simp [pricePerPage]
  · cases colorMode <;> simp [pricePerPage]
  · simp [pricePerPage]
  · simp [pricePerPage]
  · simp [pricePerPage]
  · simp [pricePerPage]
  · intro n pt sz
    rw [estimatedCost_closed_form]
    simp [billedPages_single, bindingCost]

/-- C5: the cost with binding `b` is the cost of the same job with no
binding plus a surcharge applied exactly once — 25 for spiral, 100 for
soft, 0 for none — and the surcharge of any single config is one of
0, 25, 100, never a combination. -/
theorem binding_surcharge_additive (n : ℕ) (cfg : PrintConfig) :
    estimatedCost n cfg
      = estimatedCost n { cfg with binding := Binding.none } + bindingCost cfg.binding
    ∧ bindingCost Binding.spiral = 25
    ∧ bindingCost Binding.soft = 100
    ∧ bindingCost Binding.none = 0
    ∧ ∀ b : Binding, bindingCost b = 0 ∨ bindingCost b = 25 ∨ bindingCost b = 100 := by
  refine ⟨?_, rfl, rfl, rfl, ?_⟩
  · rw [estimatedCost_closed_form, estimatedCost_closed_form]
    simp [bindingCost]
  · intro b
    cases b <;> simp [bindingCost]

/-- C9: `estimatedCost` is a pure total function of its two inputs —
equal inputs give equal outputs — and for every page count and every
config whose `copies` lies in the range 1–50 the data model prescribes,
the result is non-negative. -/
theorem estimated_cost_deterministic_nonneg (n m : ℕ) (cfg cfg₂ : PrintConfig)
    (hcopies : 1 ≤ cfg.copies) (hn : n = m) (hcfg : cfg = cfg₂) :
    estimatedCost n cfg = estimatedCost m cfg₂ ∧ 0 ≤ estimatedCost n cfg := by
  subst hn hcfg
  refine ⟨rfl, ?_⟩
  rw [estimatedCost_closed_form]
  have hU : (0 : ℚ) ≤ (billedPages cfg.printSides n : ℚ) := by positivity
  have hP := pricePerPage_nonneg cfg.paperType cfg.pageSize cfg.colorMode
  have hX := xeroxPricePerPage_nonneg cfg.colorMode
  have hB := bindingCost_nonneg cfg.binding
  by_cases hc : cfg.copies = 1
  · rw [if_pos hc]
    have := mul_nonneg hU hP
    linarith
  · rw [if_neg hc]
    have hc2 : (1 : ℚ) ≤ ((cfg.copies - 1 : ℤ) : ℚ) := by
      have h2 : (1 : ℤ) ≤ cfg.copies - 1 := by omega
      exact_mod_cast h2
    have h1 := mul_nonneg hU hP
    have h2 := mul_nonneg (mul_nonneg hU hX) (le_trans zero_le_one hc2)
    linarith

/-- Witness for C9 at the default configuration and zero pages. -/
theorem estimated_cost_deterministic_nonneg_witness :
    estimatedCost 0 defaultPrintConfig = estimatedCost 0 defaultPrintConfig
    ∧ 0 ≤ estimatedCost 0 defaultPrintConfig :=
  estimated_cost_deterministic_nonneg 0 0 defaultPrintConfig defaultPrintConfig
    (by norm_num [defaultPrintConfig]) rfl rfl

/-- C6: when the fetched service status is inactive, the student dashboard
renders the service-stopped banner carrying the recorded message (the
fallback text only when no non-empty message was recorded) and not the
upload view, so no upload or continue control is shown and no submission
can start. -/
theorem service_stopped_blocks_upload (status : ServiceStatus)
    (h : status.is_active = false) :
    renderStudentDashboard false (some status)
      = StudentView.serviceStoppedBanner (jsOrString status.message defaultStoppedMessage)
    ∧ (∀ m : String, status.message = some m → m ≠ "" →
        renderStudentDashboard false (some status) = StudentView.serviceStoppedBanner m)
    ∧ renderStudentDashboard false (some status) ≠ StudentView.uploadView := by
  refine ⟨?_, ?_, ?_⟩
  · simp [renderStudentDashboard, h]
  · intro m hm hme
    simp [renderStudentDashboard, h, jsOrString, hm, hme]
  · simp [renderStudentDashboard, h]

/-- Witness for C6: a stopped status with message "closed" renders the
banner with that message. -/
theorem service_stopped_blocks_upload_witness :
    renderStudentDashboard false
        (some { is_active := false
                message := some "closed"
                stopped_at := Option.none
                stopped_by := Option.none })
      = StudentView.serviceStoppedBanner "closed" :=
  (service_stopped_blocks_upload
    { is_active := false
      message := some "closed"
      stopped_at := Option.none
      stopped_by := Option.none } rfl).2.1 "closed" rfl (by simp)

/-- C7: every reachable `printConfig` has `copies` between 1 and 50 — the
default is 1, the dropdown offers only values from 1 to 10, and the custom
input is applied only when it parses to an integer between 1 and 50,
leaving `copies` unchanged otherwise. -/
theorem copies_invariant (cfg : PrintConfig) (h : ReachableConfig cfg) :
    1 ≤ cfg.copies ∧ cfg.copies ≤ 50 := by
  induction h with
  | start => exact ⟨le_refl 1, by norm_num [defaultPrintConfig]⟩
  | colorModeSelect mode _ ih => exact ih
  | paperTypeSelect type _ ih => exact ih
  | pageSizeSelect size _ ih => exact ih
  | printSidesSelect sides _ ih => exact ih
  | @copiesSelect cfg2 num a hmem ih =>
      show 1 ≤ num ∧ num ≤ 50
      simp only [copiesOptions, List.mem_cons, List.not_mem_nil, or_false] at hmem
      rcases hmem with h | h | h | h | h | h | h | h | h | h <;> omega
  | @customCopiesSubmit cfg2 input a ih =>
      rcases customCopies_cases cfg2 input with hEq | ⟨num, hr, hEq⟩
      · rw [hEq]
        exact ih
      · rw [hEq]
        exact hr
  | bindingToggle _ hb ih => exact ih

/-- Witness for C7 at the initial configuration. -/
theorem copies_invariant_witness :
    1 ≤ defaultPrintConfig.copies ∧ defaultPrintConfig.copies ≤ 50 :=
  copies_invariant defaultPrintConfig ReachableConfig.start

/-- C8: `totalPages` is the sum of the per-file page counts, a file with
no page count contributing 0 and the cover page contributing nothing; the
same derived sum describes the state after adding, removing, or
reordering files, since the effect recomputes it from the new list. -/
theorem total_pages_is_sum_of_page_counts (fs gs : List UploadedFile)
    (id : String) (i j : ℕ) :
    totalPages fs = (fs.map (fun file => file.pageCount.getD 0)).sum
    ∧ totalPages (addFiles fs gs)
        = ((addFiles fs gs).map (fun file => file.pageCount.getD 0)).sum
    ∧ totalPages (removeFile fs id)
        = ((removeFile fs id).map (fun file => file.pageCount.getD 0)).sum
    ∧ totalPages (reorderFiles fs i j)
        = ((reorderFiles fs i j).map (fun file => file.pageCount.getD 0)).sum :=
  ⟨totalPages_eq_sum fs, totalPages_eq_sum (addFiles fs gs),
    totalPages_eq_sum (removeFile fs id), totalPages_eq_sum (reorderFiles fs i j)⟩

/-- C10: for in-range indices, `reorderFiles i j` permutes the list
(same length, same elements) and `reorderFiles j i` undoes it. -/
theorem reorder_files_perm_involutive (fs : List UploadedFile) (i j : ℕ)
    (hi : i < fs.length) (hj : j < fs.length) :
    (reorderFiles fs i j).Perm fs
    ∧ (reorderFiles fs i j).length = fs.length
    ∧ reorderFiles (reorderFiles fs i j) j i = fs := by
  have hget : fs[i]? = some fs[i] := List.getElem?_eq_getElem hi
  have hperm0 : fs.Perm (fs[i] :: fs.eraseIdx i) := eraseIdx_cons_perm fs i hi
  have hlen : (fs.eraseIdx i).length + 1 = fs.length := by
    simpa using hperm0.length_eq.symm
  have hj2 : j ≤ (fs.eraseIdx i).length := by omega
  have hr : reorderFiles fs i j = ((fs.eraseIdx i).insertIdx j fs[i]) := by
    simp [reorderFiles, hget]
  have hperm1 : ((fs.eraseIdx i).insertIdx j fs[i]).Perm fs :=
    (insertIdx_perm (fs[i]) j (fs.eraseIdx i) hj2).trans hperm0.symm
  have hlen1 : ((fs.eraseIdx i).insertIdx j fs[i]).length = fs.length := by
    rw [List.length_insertIdx _ _ hj2]
    omega
  refine ⟨hr ▸ hperm1, hr ▸ hlen1, ?_⟩
  rw [hr]
  have hjlt : j < ((fs.eraseIdx i).insertIdx j fs[i]).length := by omega
  have hget2 : ((fs.eraseIdx i).insertIdx j fs[i])[j]? = some fs[i] := by
    rw [List.getElem?_eq_getElem hjlt]
    exact congrArg some (List.getElem_insertIdx_self (fs.eraseIdx i) (fs[i]) j hj2)
  rw [reorderFiles, hget2]
  simp only [List.eraseIdx_insertIdx]
  exact insertIdx_getElem_eraseIdx fs i hi

/-- Witness for C10 on a concrete three-file list, moving the first file
to the back and undoing it. -/
theorem reorder_files_perm_involutive_witness :
    (reorderFiles
        [{ id := "a", name := "one.pdf", pageCount := some 2 },
         { id := "b", name := "two.pdf", pageCount := some 3 },
         { id := "c", name := "three.pdf", pageCount := Option.none }] 0 2).Perm
      [{ id := "a", name := "one.pdf", pageCount := some 2 },
       { id := "b", name := "two.pdf", pageCount := some 3 },
       { id := "c", name := "three.pdf", pageCount := Option.none }]
    ∧ (reorderFiles
        [{ id := "a", name := "one.pdf", pageCount := some 2 },
         { id := "b", name := "two.pdf", pageCount := some 3 },
         { id := "c", name := "three.pdf", pageCount := Option.none }] 0 2).length = 3
    ∧ reorderFiles (reorderFiles
        [{ id := "a", name := "one.pdf", pageCount := some 2 },
         { id := "b", name := "two.pdf", pageCount := some 3 },
         { id := "c", name := "three.pdf", pageCount := Option.none }] 0 2) 2 0
      = [{ id := "a", name := "one.pdf", pageCount := some 2 },
         { id := "b", name := "two.pdf", pageCount := some 3 },
         { id := "c", name := "three.pdf", pageCount := Option.none }] :=
  reorder_files_perm_involutive
    [{ id := "a", name := "one.pdf", pageCount := some 2 },
     { id := "b", name := "two.pdf", pageCount := some 3 },
     { id := "c", name := "three.pdf", pageCount := Option.none }] 0 2
    (by norm_num) (by norm_num)

/-- C1: the guard blocks submission while `transactionId` is null, but the
verified transaction id does NOT reach the `transactionId`
parameter of `submitOrder`: the eight-argument call binds it to the `paperType` parameter,
so the `transaction_id` form field of the produced request is undefined.
Evaluated at a verified state (`transactionId = "TXN123"`). -/
theorem submit_misroutes_transaction_id :
    handlePayment { transactionId := Option.none, isSubmitting := false }
        { name := "Asha", studentId := "S42", phoneNumber := "9999999999",
          instructions := "staple" } defaultPrintConfig
      = Option.none
    ∧ ∃ form : SubmitOrderForm,
        handlePayment { transactionId := some "TXN123", isSubmitting := false }
            { name := "Asha", studentId := "S42", phoneNumber := "9999999999",
              instructions := "staple" } defaultPrintConfig
          = some form
        ∧ form.transaction_id = Option.none
        ∧ form.paper_type = some "TXN123"
        ∧ form.page_size = some "staple" := by
  refine ⟨by decide, ?_⟩
  exact ⟨{ student_name := some "Asha", student_id := some "S42",
           color_mode := some "bw", print_sides := some "single",
           copies := some 1, page_size := some "staple",
           paper_type := some "TXN123", binding := Option.none,
           instructions := Option.none, transaction_id := Option.none },
         by decide, rfl, rfl, rfl⟩

end PrintScheduling
